import Mathlib

/-
Shallow embedding of the zerosumfc repository (files src/zerosumfc/data.py and
src/zerosumfc/minmaxagent.py), together with theorems settling the claims about
its natural-language specification.

Modelling conventions:
  * Python int health values are modelled as Int (they may only be clamped at
    0 by explicit max calls in the source, never by the type).
  * Item and shell counts are modelled as Nat; every decrement in the source is
    guarded by a positivity check on the same count, so Nat subtraction agrees
    with the Python semantics on all reachable inputs.
  * Python float probabilities are modelled as exact rationals (ℚ).
  * Python exceptions (raise ValueError) are modelled with Except String.
  * The ambient random.choice([True, False]) stream consumed by p_win_sample
    is modelled as an explicit argument c : Nat → Bool together with a
    position index threaded through the sampling loops.
  * The recursion of pick_move is modelled with an explicit fuel parameter;
    fuel 0 yields an error value and every theorem about pick_move is stated
    for a positive fuel pattern, on branches that do not recurse.
-/

namespace ZeroSumFC

/-- Role enum from data.py: PLAYER and DEALER, in definition order. -/
inductive Role where
  | PLAYER
  | DEALER
deriving DecidableEq

/-- Role.opponent property from data.py. -/
def Role.opponent : Role → Role
  | Role.PLAYER => Role.DEALER
  | Role.DEALER => Role.PLAYER

/-- list(Role) in Python iterates the members in definition order. -/
def Role.all : List Role := [Role.PLAYER, Role.DEALER]

/-- Item enum from data.py, in definition order. -/
inductive Item where
  | GLASS
  | CIGARETTES
  | BEER
  | SAW
  | HANDCUFFS
deriving DecidableEq

/-- Shell enum from data.py: LIVE and BLANK, in definition order. -/
inductive Shell where
  | LIVE
  | BLANK
deriving DecidableEq

/-- list(Shell) in Python iterates the members in definition order. -/
def Shell.all : List Shell := [Shell.LIVE, Shell.BLANK]

/-- Action = Shoot(target) | Use(item) from data.py. -/
inductive Action where
  | Shoot (target : Role)
  | Use (item : Item)
deriving DecidableEq

/-- PlayerState dataclass from data.py: health plus the five item counters. -/
structure PlayerState where
  health : Int
  glass_count : Nat
  beer_count : Nat
  saw_count : Nat
  handcuffs_count : Nat
  cigarettes_count : Nat
deriving DecidableEq

/-- PlayerState.__getitem__ from data.py. -/
def PlayerState.item_count (p : PlayerState) : Item → Nat
  | Item.GLASS => p.glass_count
  | Item.BEER => p.beer_count
  | Item.HANDCUFFS => p.handcuffs_count
  | Item.CIGARETTES => p.cigarettes_count
  | Item.SAW => p.saw_count

/-- PlayerState.__contains__ from data.py: the item's count is positive. -/
def PlayerState.contains (p : PlayerState) (item : Item) : Prop :=
  0 < p.item_count item

instance (p : PlayerState) (item : Item) : Decidable (p.contains item) :=
  inferInstanceAs (Decidable (0 < p.item_count item))

/-- PlayerState.damage from data.py: reduce health, bracketed above 0. -/
def PlayerState.damage (p : PlayerState) (amount : Int) : PlayerState :=
  { p with health := max 0 (p.health - amount) }

/-- PlayerState.take_item from data.py: if the count is positive, use it up. -/
def PlayerState.take_item (p : PlayerState) (item : Item) :
    Bool × PlayerState :=
  if p.contains item then
    (true,
      match item with
      | Item.GLASS => { p with glass_count := p.glass_count - 1 }
      | Item.BEER => { p with beer_count := p.beer_count - 1 }
      | Item.HANDCUFFS => { p with handcuffs_count := p.handcuffs_count - 1 }
      | Item.CIGARETTES =>
          { p with cigarettes_count := p.cigarettes_count - 1 }
      | Item.SAW => { p with saw_count := p.saw_count - 1 })
  else (false, p)

/-- GameState dataclass from data.py (the VisibleGameState of the spec). -/
structure GameState where
  player_state : PlayerState
  dealer_state : PlayerState
  max_health : Int
  current_player : Role
  saw_active : Bool
  handcuffs_active : Bool
deriving DecidableEq

/-- GameState.__getitem__ from data.py. -/
def GameState.get (s : GameState) : Role → PlayerState
  | Role.DEALER => s.dealer_state
  | Role.PLAYER => s.player_state

/-- GameState._replace_player from data.py. -/
def GameState.replace_player (s : GameState) (p : PlayerState) :
    Role → GameState
  | Role.DEALER => { s with dealer_state := p }
  | Role.PLAYER => { s with player_state := p }

/-- GameState.new classmethod from data.py: full health, empty inventories,
PLAYER to move, no active modifiers. -/
def GameState.new (max_health : Int) : GameState :=
  { player_state := ⟨max_health, 0, 0, 0, 0, 0⟩
    dealer_state := ⟨max_health, 0, 0, 0, 0, 0⟩
    max_health := max_health
    current_player := Role.PLAYER
    saw_active := false
    handcuffs_active := false }

/-- GameState.reset_modifiers from data.py. -/
def GameState.reset_modifiers (s : GameState) : GameState :=
  { s with handcuffs_active := false, saw_active := false }

/-- GameState.end_turn from data.py: handcuffs swallow the turn pass. -/
def GameState.end_turn (s : GameState) : GameState :=
  if s.handcuffs_active then s.reset_modifiers
  else { s.reset_modifiers with current_player := s.current_player.opponent }

/-- GameState.shoot from data.py. -/
def GameState.shoot (s : GameState) (shell : Shell) (target : Role) :
    GameState :=
  if shell = Shell.BLANK ∧ target = s.current_player then
    { s with saw_active := false }
  else
    let amount : Int := if shell = Shell.LIVE then 1 else 0
    let amount := if s.saw_active then amount * 2 else amount
    let player_state := (s.get target).damage amount
    (s.replace_player player_state target).end_turn

/-- GameState.heal_current_player from data.py. -/
def GameState.heal_current_player (s : GameState) (amount : Int) : GameState :=
  let new_health :=
    min s.max_health ((s.get s.current_player).health + amount)
  let new_state := { s.get s.current_player with health := new_health }
  s.replace_player new_state s.current_player

/-- GameState.take_item from data.py. -/
def GameState.take_item (s : GameState) (item : Item) : Bool × GameState :=
  let r := (s.get s.current_player).take_item item
  (r.1, s.replace_player r.2 s.current_player)

/-- HiddenState dataclass from minmaxagent.py: remaining live and blank shell
counts plus an optional known next shell. -/
structure HiddenState where
  live_shells : Nat
  blank_shells : Nat
  next_shell : Option Shell
deriving DecidableEq

/-- HiddenState.use from minmaxagent.py: decrement the drawn kind and clear
next_shell. Every call site in the search guards the decremented count with a
positivity check, so Nat subtraction matches the Python behaviour there. -/
def HiddenState.use (h : HiddenState) : Shell → HiddenState
  | Shell.LIVE =>
      { h with live_shells := h.live_shells - 1, next_shell := none }
  | Shell.BLANK =>
      { h with blank_shells := h.blank_shells - 1, next_shell := none }

/-- HiddenState.count from minmaxagent.py. -/
def HiddenState.count (h : HiddenState) : Shell → Nat
  | Shell.LIVE => h.live_shells
  | Shell.BLANK => h.blank_shells

/-- HiddenState.prob from minmaxagent.py: 0 when the queried count is 0,
otherwise count divided by the total of both counts. -/
def HiddenState.prob (h : HiddenState) (shell : Shell) : ℚ :=
  let count := h.count shell
  if count = 0 then 0
  else (count : ℚ) / ((h.live_shells + h.blank_shells : Nat) : ℚ)

/-- MinMaxState dataclass from minmaxagent.py (the CombinedSearchState of
the spec). -/
structure MinMaxState where
  visible_state : GameState
  hidden_state : HiddenState
deriving DecidableEq

/-- StateProb dataclass from minmaxagent.py: a probability paired with a
resulting search state. -/
structure StateProb where
  p_state : ℚ
  state : MinMaxState

/-- StateList alias from minmaxagent.py. -/
abbrev StateList := List StateProb

/-- MinMaxState.shoot from minmaxagent.py: one branch per shell kind with a
positive remaining count, weighted by HiddenState.prob. Note the branch
probabilities never consult next_shell. -/
def MinMaxState.shoot (s : MinMaxState) (target : Role) : StateList :=
  Shell.all.filterMap (fun shell =>
    if 0 < s.hidden_state.count shell then
      some ⟨s.hidden_state.prob shell,
        ⟨s.visible_state.shoot shell target, s.hidden_state.use shell⟩⟩
    else none)

/-- MinMaxState._try_take from minmaxagent.py: raises ValueError when the
current player does not hold the item. -/
def MinMaxState.try_take (s : MinMaxState) (item : Item) :
    Except String GameState :=
  let r := s.visible_state.take_item item
  if r.1 then Except.ok r.2
  else Except.error "Agent tried to use unavailable item"

/-- MinMaxState.use_beer from minmaxagent.py: eject a shell without damage. -/
def MinMaxState.use_beer (s : MinMaxState) : Except String StateList := do
  let new_visible_state ← s.try_take Item.BEER
  pure (Shell.all.filterMap (fun shell =>
    if 0 < s.hidden_state.count shell then
      some ⟨s.hidden_state.prob shell,
        ⟨new_visible_state, s.hidden_state.use shell⟩⟩
    else none))

/-- MinMaxState.use_cigarettes from minmaxagent.py: heal 1, single branch. -/
def MinMaxState.use_cigarettes (s : MinMaxState) : Except String StateList := do
  let taken ← s.try_take Item.CIGARETTES
  let new_visible_state := taken.heal_current_player 1
  pure [⟨1, ⟨new_visible_state, s.hidden_state⟩⟩]

/-- MinMaxState.use_handcuffs from minmaxagent.py. -/
def MinMaxState.use_handcuffs (s : MinMaxState) : Except String StateList := do
  let taken ← s.try_take Item.HANDCUFFS
  let new_visible_state := { taken with handcuffs_active := true }
  pure [⟨1, ⟨new_visible_state, s.hidden_state⟩⟩]

/-- MinMaxState.use_glass from minmaxagent.py: branch on the revealed shell,
recording it in next_shell. -/
def MinMaxState.use_glass (s : MinMaxState) : Except String StateList := do
  let new_visible_state ← s.try_take Item.GLASS
  pure (Shell.all.filterMap (fun shell =>
    if 0 < s.hidden_state.count shell then
      some ⟨s.hidden_state.prob shell,
        ⟨new_visible_state, { s.hidden_state with next_shell := some shell }⟩⟩
    else none))

/-- MinMaxState.use_saw from minmaxagent.py. -/
def MinMaxState.use_saw (s : MinMaxState) : Except String StateList := do
  let taken ← s.try_take Item.SAW
  let new_visible_state := { taken with saw_active := true }
  pure [⟨1, ⟨new_visible_state, s.hidden_state⟩⟩]

/-- MinMaxState.use_item from minmaxagent.py; the Python catch-all arm is
unreachable because Item is a closed enum. -/
def MinMaxState.use_item (s : MinMaxState) : Item → Except String StateList
  | Item.BEER => s.use_beer
  | Item.CIGARETTES => s.use_cigarettes
  | Item.HANDCUFFS => s.use_handcuffs
  | Item.GLASS => s.use_glass
  | Item.SAW => s.use_saw

/-- MinMaxState.perform_action from minmaxagent.py; the Python catch-all arm
is unreachable because Action is a closed union. -/
def MinMaxState.perform_action (s : MinMaxState) : Action →
    Except String StateList
  | Action.Shoot target => Except.ok (s.shoot target)
  | Action.Use item => s.use_item item

/-- MoveOption dataclass from minmaxagent.py: ordered by p_win only (the move
field carries compare=False). -/
structure MoveOption where
  p_win : ℚ
  move : Option Action
deriving DecidableEq

/-- Python max over MoveOption values: first element wins ties, a later
element replaces the current best only when strictly greater; max of an empty
sequence raises ValueError. -/
def listMax : List MoveOption → Except String MoveOption
  | [] => Except.error "max of an empty sequence"
  | x :: xs =>
      Except.ok (xs.foldl (fun a b => if a.p_win < b.p_win then b else a) x)

/-- Python min over MoveOption values, mirroring listMax. -/
def listMin : List MoveOption → Except String MoveOption
  | [] => Except.error "min of an empty sequence"
  | x :: xs =>
      Except.ok (xs.foldl (fun a b => if b.p_win < a.p_win then b else a) x)

/-- Inner move function of p_win_sample from minmaxagent.py: a coin decides
whether the side to move scores a hit on the other side. -/
def pws_move (p1 p2 : Int) (p1_next : Bool) (coin : Bool) :
    Int × Int × Bool :=
  if coin then
    if p1_next then (p1, p2 - 1, !p1_next) else (p1 - 1, p2, !p1_next)
  else (p1, p2, !p1_next)

/-- Inner is_win predicate of p_win_sample from minmaxagent.py. -/
def pws_win (p1 p2 : Int) (_ : Bool) : Bool := p1 != 0 && p2 == 0

/-- Inner is_loss predicate of p_win_sample from minmaxagent.py. -/
def pws_loss (p1 p2 : Int) (_ : Bool) : Bool := p1 == 0 && p2 != 0

/-- One trial of p_win_sample: up to max_iter coin-driven moves, stopping at
the first win or loss; returns whether the trial was a win together with the
next unread position of the coin stream. -/
def pws_loop : Nat → Int → Int → Bool → (Nat → Bool) → Nat → Bool × Nat
  | 0, _, _, _, _, i => (false, i)
  | k + 1, p1, p2, pn, c, i =>
      let m := pws_move p1 p2 pn (c i)
      if pws_win m.1 m.2.1 m.2.2 then (true, i + 1)
      else if pws_loss m.1 m.2.1 m.2.2 then (false, i + 1)
      else pws_loop k m.1 m.2.1 m.2.2 c (i + 1)

/-- Outer trials loop of p_win_sample: each trial restarts from the given
healths and turn flag, accumulating the number of winning trials. -/
def pws_trials : Nat → Int → Int → Bool → (Nat → Bool) → Nat → Nat → Nat
  | 0, _, _, _, _, _, wins => wins
  | t + 1, player, dealer, pn, c, i, wins =>
      let r := pws_loop 100 player dealer pn c i
      pws_trials t player dealer pn c r.2 (wins + if r.1 then 1 else 0)

/-- p_win_sample from minmaxagent.py: Monte Carlo estimate wins / trials,
with random.choice modelled by the explicit coin stream c read from
position 0. The inner loop bound max_iter = 100 is from the source. -/
def p_win_sample (player dealer : Int) (player_next : Bool) (trials : Nat)
    (c : Nat → Bool) : ℚ :=
  ((pws_trials trials player dealer player_next c 0 0 : Nat) : ℚ) /
    (trials : ℚ)

/-- list_moves from minmaxagent.py: forced cigarettes heal, otherwise both
Shoot targets followed by the legal item uses in source order. -/
def list_moves (s : MinMaxState) : List Action :=
  let current_player := s.visible_state.current_player
  let player_state := s.visible_state.get current_player
  let max_health := s.visible_state.max_health
  if player_state.contains Item.CIGARETTES ∧ player_state.health < max_health
  then [Action.Use Item.CIGARETTES]
  else
    let moves := Role.all.map (fun target => Action.Shoot target)
    let moves :=
      if player_state.contains Item.BEER then moves ++ [Action.Use Item.BEER]
      else moves
    let moves :=
      if player_state.contains Item.GLASS ∧ s.hidden_state.next_shell = none
      then moves ++ [Action.Use Item.GLASS] else moves
    let moves :=
      if player_state.contains Item.HANDCUFFS ∧
          ¬s.visible_state.handcuffs_active
      then moves ++ [Action.Use Item.HANDCUFFS] else moves
    let moves :=
      if player_state.contains Item.SAW ∧ ¬s.visible_state.saw_active
      then moves ++ [Action.Use Item.SAW] else moves
    moves

/-- pick_move from minmaxagent.py, with score_move inlined (score_move sums
probability-weighted recursive win probabilities over perform_action's
outcomes). Terminal health checks come first, player before dealer; then the
exhausted-ammunition branch, which calls p_win_sample on
visible_state.player_state.health for BOTH health arguments, exactly as the
source does; then the recursive minimax branch. Fuel makes the recursion
structural; fuel 0 is an error value never produced by the source branches. -/
def pick_move : Nat → MinMaxState → (Nat → Bool) → Except String MoveOption
  | 0, _, _ => Except.error "search fuel exhausted"
  | fuel + 1, s, c =>
      if s.visible_state.player_state.health = 0 then
        Except.ok ⟨0, none⟩
      else if s.visible_state.dealer_state.health = 0 then
        Except.ok ⟨1, none⟩
      else if s.hidden_state.blank_shells = 0 ∧
          s.hidden_state.live_shells = 0 then
        let player_health := s.visible_state.player_state.health
        let dealer_health := s.visible_state.player_state.health
        let player_next := s.visible_state.current_player == Role.PLAYER
        Except.ok ⟨p_win_sample player_health dealer_health player_next 1000 c,
          none⟩
      else do
        let options ← (list_moves s).mapM (fun move => do
          let states ← s.perform_action move
          let scores ← states.mapM (fun sp => do
            let r ← pick_move fuel sp.state c
            pure (sp.p_state * r.p_win))
          pure (MoveOption.mk scores.sum (some move)))
        if s.visible_state.current_player = Role.PLAYER then listMax options
        else listMin options

/-- Coin stream that always answers True. -/
def allTrue : Nat → Bool := fun _ => true

/-- Coin stream that always answers False. -/
def allFalse : Nat → Bool := fun _ => false

/-- Exhausted-ammunition state with player health 1 and dealer health 3. -/
def sC1 : MinMaxState :=
  ⟨⟨⟨1, 0, 0, 0, 0, 0⟩, ⟨3, 0, 0, 0, 0, 0⟩, 3, Role.PLAYER, false, false⟩,
    ⟨0, 0, none⟩⟩

/-- Fresh game with shells (1 live, 1 blank) and a revealed live next shell. -/
def sC2 : MinMaxState := ⟨GameState.new 10, ⟨1, 1, some Shell.LIVE⟩⟩

/-- Exhausted-ammunition state with both healths equal to 1. -/
def sC3 : MinMaxState :=
  ⟨⟨⟨1, 0, 0, 0, 0, 0⟩, ⟨1, 0, 0, 0, 0, 0⟩, 1, Role.PLAYER, false, false⟩,
    ⟨0, 0, none⟩⟩

/-- State in which the player's health is 0 and shells remain. -/
def sC3w : MinMaxState :=
  ⟨⟨⟨0, 0, 0, 0, 0, 0⟩, ⟨1, 0, 0, 0, 0, 0⟩, 1, Role.PLAYER, false, false⟩,
    ⟨1, 1, none⟩⟩

/-- State in which both participants' healths are 0. -/
def sC4 : MinMaxState :=
  ⟨⟨⟨0, 0, 0, 0, 0, 0⟩, ⟨0, 0, 0, 0, 0, 0⟩, 1, Role.PLAYER, false, false⟩,
    ⟨1, 1, none⟩⟩

/-- State in which only the player's health is 0. -/
def sC4wa : MinMaxState :=
  ⟨⟨⟨0, 0, 0, 0, 0, 0⟩, ⟨1, 0, 0, 0, 0, 0⟩, 2, Role.PLAYER, false, false⟩,
    ⟨2, 1, none⟩⟩

/-- State in which only the dealer's health is 0, with a nontrivial hidden
shell state. -/
def sC4wb : MinMaxState :=
  ⟨⟨⟨2, 0, 0, 0, 0, 0⟩, ⟨0, 0, 0, 0, 0, 0⟩, 2, Role.DEALER, false, false⟩,
    ⟨1, 1, some Shell.LIVE⟩⟩

/-- State whose current player holds one of every item and is below max
health. -/
def sC5 : MinMaxState :=
  ⟨⟨⟨1, 1, 1, 1, 1, 1⟩, ⟨3, 0, 0, 0, 0, 0⟩, 3, Role.PLAYER, false, false⟩,
    ⟨1, 1, none⟩⟩

/-- Fresh game whose hidden shell counts are both 0. -/
def sC8 : MinMaxState := ⟨GameState.new 10, ⟨0, 0, none⟩⟩

/-- Second zero-shell state, with the dealer to move. -/
def sC8w : MinMaxState :=
  ⟨⟨⟨2, 0, 1, 0, 0, 0⟩, ⟨3, 1, 0, 0, 0, 0⟩, 3, Role.DEALER, false, false⟩,
    ⟨0, 0, none⟩⟩

/-- Hidden state with two live shells and one blank. -/
def h7 : HiddenState := ⟨2, 1, none⟩

/-- With healths (1, 1) and an all-True coin stream, every trial wins on its
first move: the side to move hits the other side, whose health reaches 0. -/
theorem pws_loop_allTrue_11 (k i : Nat) :
    pws_loop (k + 1) 1 1 true allTrue i = (true, i + 1) := rfl

/-- With healths (1, 1) and an all-True stream, every one of t trials wins. -/
theorem pws_trials_allTrue_11 (t : Nat) :
    ∀ i wins : Nat, pws_trials t 1 1 true allTrue i wins = wins + t := by
  induction t with
  | zero => intro i wins; simp [pws_trials]
  | succ n ih =>
      intro i wins
      have h100 : pws_loop 100 1 1 true allTrue i = (true, i + 1) :=
        pws_loop_allTrue_11 99 i
      simp only [pws_trials, h100]
      norm_num
      rw [ih]
      omega

/-- Sample estimate at healths (1, 1) under the all-True stream: certainty. -/
theorem p_win_sample_allTrue_11 :
    p_win_sample 1 1 true 1000 allTrue = 1 := by
  unfold p_win_sample
  rw [pws_trials_allTrue_11 1000 0 0]
  norm_num

/-- Under the all-False stream no health ever changes, so a trial at healths
(1, 1) runs through all its iterations and ends with no win recorded. -/
theorem pws_loop_allFalse_11 (k : Nat) :
    ∀ (pn : Bool) (i : Nat),
      pws_loop k 1 1 pn allFalse i = (false, i + k) := by
  induction k with
  | zero => intro pn i; simp [pws_loop]
  | succ n ih =>
      intro pn i
      have hm : pws_move 1 1 pn false = (1, 1, !pn) := by
        simp [pws_move]
      have hw : pws_win 1 1 (!pn) = false := rfl
      have hl : pws_loss 1 1 (!pn) = false := rfl
      simp only [pws_loop, allFalse, hm, hw, hl]
      rw [ih]
      simp
      omega

/-- With healths (1, 1) and an all-False stream, no trial ever wins. -/
theorem pws_trials_allFalse_11 (t : Nat) :
    ∀ (pn : Bool) (i wins : Nat),
      pws_trials t 1 1 pn allFalse i wins = wins := by
  induction t with
  | zero => intro pn i wins; simp [pws_trials]
  | succ n ih =>
      intro pn i wins
      have h100 : pws_loop 100 1 1 pn allFalse i = (false, i + 100) :=
        pws_loop_allFalse_11 100 pn i
      simp only [pws_trials, h100]
      rw [ih]
      simp

/-- Sample estimate at healths (1, 1) under the all-False stream: zero. -/
theorem p_win_sample_allFalse_11 :
    p_win_sample 1 1 true 1000 allFalse = 0 := by
  unfold p_win_sample
  rw [pws_trials_allFalse_11 1000 true 0 0]
  norm_num

/-- With healths (1, 3) and an all-True stream, a trial hits the dealer once,
then the dealer hits the player, whose health reaches 0: a loss in two
moves. -/
theorem pws_loop_allTrue_13 (k i : Nat) :
    pws_loop (k + 2) 1 3 true allTrue i = (false, i + 2) := rfl

/-- With healths (1, 3) and an all-True stream, no trial ever wins. -/
theorem pws_trials_allTrue_13 (t : Nat) :
    ∀ i wins : Nat, pws_trials t 1 3 true allTrue i wins = wins := by
  induction t with
  | zero => intro i wins; simp [pws_trials]
  | succ n ih =>
      intro i wins
      have h100 : pws_loop 100 1 3 true allTrue i = (false, i + 2) :=
        pws_loop_allTrue_13 98 i
      simp only [pws_trials, h100]
      rw [ih]
      simp

/-- Sample estimate at healths (1, 3) under the all-True stream: zero. -/
theorem p_win_sample_allTrue_13 :
    p_win_sample 1 3 true 1000 allTrue = 0 := by
  unfold p_win_sample
  rw [pws_trials_allTrue_13 1000 0 0]
  norm_num

/-- Claim C1: on an exhausted-ammunition state with both healths nonzero,
pick_move should return the Terminal Estimator applied to the player's health
AND the dealer's health. On sC1 (player health 1, dealer health 3) under the
all-True coin stream, pick_move returns probability 1 because it feeds the
player's health into both estimator arguments, while the estimator applied to
the actual pair of healths returns 0. This exhibits the code slip at
minmaxagent.py line 239, where dealer_health is assigned
visible_state.player_state.health. -/
theorem pick_move_exhausted_substitutes_player_health_for_dealer :
    pick_move 1 sC1 allTrue = Except.ok ⟨1, none⟩ ∧
    p_win_sample sC1.visible_state.player_state.health
      sC1.visible_state.dealer_state.health true 1000 allTrue = 0 ∧
    (1 : ℚ) ≠ 0 := by
  refine ⟨?_, ?_, one_ne_zero⟩
  · have h : pick_move 1 sC1 allTrue =
        Except.ok ⟨p_win_sample 1 1 true 1000 allTrue, none⟩ := rfl
    rw [h, p_win_sample_allTrue_11]
  · show p_win_sample 1 3 true 1000 allTrue = 0
    exact p_win_sample_allTrue_13

/-- Claim C2: on a state whose hidden next_shell is a revealed LIVE shell
with counts (1 live, 1 blank), the spec says the Shoot transition must assign
probability 1 to the live branch and 0 to the blank one, but the code's
HiddenState.prob never consults next_shell, so both branches receive
probability 1/2. -/
theorem shoot_ignores_revealed_next_shell :
    sC2.hidden_state.next_shell = some Shell.LIVE ∧
    0 < sC2.hidden_state.live_shells ∧
    0 < sC2.hidden_state.blank_shells ∧
    (sC2.shoot Role.PLAYER).map (fun sp => sp.p_state) = [1/2, 1/2] := by
  refine ⟨rfl, by decide, by decide, ?_⟩
  norm_num [MinMaxState.shoot, Shell.all, sC2, GameState.new,
    HiddenState.count, HiddenState.prob, List.filterMap_cons,
    List.filterMap_nil]

/-- Claim C3 counterexample: two evaluations of pick_move on the structurally
equal exhausted-ammunition state sC3, differing only in the coin stream
consumed by p_win_sample, return win probabilities 1 and 0: randomness does
influence the result. -/
theorem pick_move_depends_on_random_stream :
    pick_move 1 sC3 allTrue = Except.ok ⟨1, none⟩ ∧
    pick_move 1 sC3 allFalse = Except.ok ⟨0, none⟩ ∧
    (1 : ℚ) ≠ 0 := by
  refine ⟨?_, ?_, one_ne_zero⟩
  · have h : pick_move 1 sC3 allTrue =
        Except.ok ⟨p_win_sample 1 1 true 1000 allTrue, none⟩ := rfl
    rw [h, p_win_sample_allTrue_11]
  · have h : pick_move 1 sC3 allFalse =
        Except.ok ⟨p_win_sample 1 1 true 1000 allFalse, none⟩ := rfl
    rw [h, p_win_sample_allFalse_11]

/-- Claim C3 as amended: pick_move is a deterministic function of the state
and the random stream; on every state in which one participant's health is 0
its result is independent of the stream (the randomness enters only through
the Terminal Estimator, which those branches never reach). -/
theorem pick_move_stream_independent_on_terminal_health
    (fuel : Nat) (s : MinMaxState) (c₁ c₂ : Nat → Bool)
    (h : s.visible_state.player_state.health = 0 ∨
      s.visible_state.dealer_state.health = 0) :
    pick_move fuel s c₁ = pick_move fuel s c₂ := by
  cases fuel with
  | zero => rfl
  | succ n =>
      by_cases hp : s.visible_state.player_state.health = 0
      · simp [pick_move, hp]
      · have hd : s.visible_state.dealer_state.health = 0 :=
          h.resolve_left hp
        simp [pick_move, hp, hd]

/-- Claim C3 amended witness: on the concrete dead-player state sC3w the
all-True and all-False streams give the same pick_move result. -/
theorem pick_move_stream_independent_on_terminal_health_witness :
    (sC3w.visible_state.player_state.health = 0 ∨
      sC3w.visible_state.dealer_state.health = 0) ∧
    pick_move 1 sC3w allTrue = pick_move 1 sC3w allFalse :=
  ⟨Or.inl rfl,
    pick_move_stream_independent_on_terminal_health 1 sC3w allTrue allFalse
      (Or.inl rfl)⟩

/-- Claim C4 counterexample: on the state sC4 in which BOTH healths are 0 the
dealer's health is 0, yet pick_move returns probability 0 and not 1, because
the player-health check runs first. -/
theorem pick_move_both_healths_zero_returns_zero :
    sC4.visible_state.dealer_state.health = 0 ∧
    pick_move 1 sC4 allTrue = Except.ok ⟨0, none⟩ ∧
    MoveOption.mk (0 : ℚ) none ≠ MoveOption.mk 1 none := by
  refine ⟨rfl, rfl, ?_⟩
  decide

/-- Claim C4 as amended: pick_move returns probability 0 with action None
whenever the player's health is 0, and probability 1 with action None whenever
the dealer's health is 0 and the player's is not (the player-health check
takes precedence when both are 0); both branches ignore the hidden state. -/
theorem pick_move_terminal_health_values (fuel : Nat) (s : MinMaxState)
    (c : Nat → Bool) :
    (s.visible_state.player_state.health = 0 →
      pick_move (fuel + 1) s c = Except.ok ⟨0, none⟩) ∧
    (s.visible_state.player_state.health ≠ 0 →
      s.visible_state.dealer_state.health = 0 →
      pick_move (fuel + 1) s c = Except.ok ⟨1, none⟩) := by
  constructor
  · intro hp
    simp [pick_move, hp]
  · intro hp hd
    simp [pick_move, hp, hd]

/-- Claim C4 amended witness: concrete states with a dead player and with a
dead dealer (the latter with a nontrivial hidden state). -/
theorem pick_move_terminal_health_values_witness :
    pick_move 1 sC4wa allTrue = Except.ok ⟨0, none⟩ ∧
    sC4wb.visible_state.player_state.health ≠ 0 ∧
    sC4wb.visible_state.dealer_state.health = 0 ∧
    pick_move 1 sC4wb allTrue = Except.ok ⟨1, none⟩ :=
  ⟨(pick_move_terminal_health_values 0 sC4wa allTrue).1 rfl,
    by decide, rfl,
    (pick_move_terminal_health_values 0 sC4wb allTrue).2 (by decide) rfl⟩

/-- Claim C5: when the current player holds at least one cigarettes item and
their health is strictly below max health, list_moves returns exactly the
singleton list containing Use(CIGARETTES). -/
theorem list_moves_forced_cigarettes (s : MinMaxState)
    (hc : (s.visible_state.get s.visible_state.current_player).contains
      Item.CIGARETTES)
    (hh : (s.visible_state.get s.visible_state.current_player).health <
      s.visible_state.max_health) :
    list_moves s = [Action.Use Item.CIGARETTES] := by
  simp [list_moves, hc, hh]

/-- Claim C5 witness: on sC5 the forced-heal rule produces the singleton. -/
theorem list_moves_forced_cigarettes_witness :
    (sC5.visible_state.get sC5.visible_state.current_player).contains
      Item.CIGARETTES ∧
    (sC5.visible_state.get sC5.visible_state.current_player).health <
      sC5.visible_state.max_health ∧
    list_moves sC5 = [Action.Use Item.CIGARETTES] :=
  ⟨by decide, by decide,
    list_moves_forced_cigarettes sC5 (by decide) (by decide)⟩

/-- Claim C6: shooting a live shell reduces the target's health by 2 when the
saw is active and by 1 otherwise, clamped below at 0, and in both cases the
resulting state has saw_active = false. -/
theorem shoot_live_damage_and_saw_cleared (s : GameState) (target : Role) :
    ((s.shoot Shell.LIVE target).get target).health =
      max 0 ((s.get target).health - (if s.saw_active then 2 else 1)) ∧
    (s.shoot Shell.LIVE target).saw_active = false := by
  obtain ⟨ps, ds, mh, cp, saw, hcf⟩ := s
  cases target <;> cases cp <;> cases saw <;> cases hcf <;>
    simp [GameState.shoot, GameState.get, GameState.replace_player,
      GameState.end_turn, GameState.reset_modifiers, PlayerState.damage,
      Role.opponent]

/-- Claim C7: with both counts positive, prob(LIVE) is the exact ratio
L/(L+B), prob(LIVE) + prob(BLANK) = 1, and the probabilities over the outcome
list of the Shoot transition sum to 1, all over exact rational arithmetic. -/
theorem prob_live_ratio_and_shoot_probs_sum_to_one (h : HiddenState)
    (hl : 0 < h.live_shells) (hb : 0 < h.blank_shells) :
    h.prob Shell.LIVE =
      (h.live_shells : ℚ) / ((h.live_shells + h.blank_shells : Nat) : ℚ) ∧
    h.prob Shell.LIVE + h.prob Shell.BLANK = 1 ∧
    ∀ (vs : GameState) (target : Role),
      (((MinMaxState.mk vs h).shoot target).map (fun sp => sp.p_state)).sum
        = 1 := by
  have hl0 : h.live_shells ≠ 0 := Nat.pos_iff_ne_zero.mp hl
  have hb0 : h.blank_shells ≠ 0 := Nat.pos_iff_ne_zero.mp hb
  have htot : ((h.live_shells + h.blank_shells : Nat) : ℚ) ≠ 0 := by
    have : 0 < h.live_shells + h.blank_shells := by omega
    exact_mod_cast this.ne.symm
  have hpl : h.prob Shell.LIVE =
      (h.live_shells : ℚ) / ((h.live_shells + h.blank_shells : Nat) : ℚ) := by
    simp [HiddenState.prob, HiddenState.count, hl0]
  have hpb : h.prob Shell.BLANK =
      (h.blank_shells : ℚ) / ((h.live_shells + h.blank_shells : Nat) : ℚ) := by
    simp [HiddenState.prob, HiddenState.count, hb0]
  have hsum : h.prob Shell.LIVE + h.prob Shell.BLANK = 1 := by
    rw [hpl, hpb, div_add_div_same]
    push_cast
    rw [div_self (by push_cast at htot; exact htot)]
  refine ⟨hpl, hsum, ?_⟩
  intro vs target
  have hlist : ((MinMaxState.mk vs h).shoot target).map (fun sp => sp.p_state)
      = [h.prob Shell.LIVE, h.prob Shell.BLANK] := by
    simp [MinMaxState.shoot, Shell.all, HiddenState.count, hl, hb]
  rw [hlist]
  simp [hsum]

/-- Claim C7 witness: concrete hidden state with counts (2, 1). -/
theorem prob_live_ratio_and_shoot_probs_sum_to_one_witness :
    0 < h7.live_shells ∧ 0 < h7.blank_shells ∧
    h7.prob Shell.LIVE + h7.prob Shell.BLANK = 1 ∧
    (((MinMaxState.mk (GameState.new 4) h7).shoot Role.DEALER).map
      (fun sp => sp.p_state)).sum = 1 :=
  ⟨by decide, by decide,
    (prob_live_ratio_and_shoot_probs_sum_to_one h7 (by decide)
      (by decide)).2.1,
    (prob_live_ratio_and_shoot_probs_sum_to_one h7 (by decide)
      (by decide)).2.2 (GameState.new 4) Role.DEALER⟩

/-- Claim C8 counterexample: on the zero-shell state sC8 the Shoot transition
returns normally with an empty outcome list (the ok constructor of the
embedded error monad), rather than failing with an error; the repository's
own test suite pins this behaviour (test_min_max_state_shoot expects the
empty set for counts (0, 0)). -/
theorem shoot_empty_shells_returns_normally :
    sC8.hidden_state.live_shells = 0 ∧
    sC8.hidden_state.blank_shells = 0 ∧
    sC8.perform_action (Action.Shoot Role.PLAYER) = Except.ok [] :=
  ⟨rfl, rfl, rfl⟩

/-- Claim C8 as amended: applying Shoot to a state whose hidden live and
blank counts are both zero returns normally with an empty outcome list; no
error is raised (the search never takes this path because pick_move handles
the exhausted case before enumerating moves). -/
theorem shoot_empty_shells_returns_empty_list (s : MinMaxState)
    (target : Role) (hl : s.hidden_state.live_shells = 0)
    (hb : s.hidden_state.blank_shells = 0) :
    s.perform_action (Action.Shoot target) = Except.ok [] := by
  simp [MinMaxState.perform_action, MinMaxState.shoot, Shell.all,
    HiddenState.count, hl, hb]

/-- Claim C8 amended witness: the zero-shell state sC8w with the dealer to
move. -/
theorem shoot_empty_shells_returns_empty_list_witness :
    sC8w.hidden_state.live_shells = 0 ∧
    sC8w.hidden_state.blank_shells = 0 ∧
    sC8w.perform_action (Action.Shoot Role.DEALER) = Except.ok [] :=
  ⟨rfl, rfl, shoot_empty_shells_returns_empty_list sC8w Role.DEALER rfl rfl⟩

/-- Claim C9: shooting a blank shell at the current player returns the input
state with only saw_active set to false: healths, inventories, max_health,
current_player and handcuffs_active are all unchanged. -/
theorem shoot_blank_self_only_clears_saw (s : GameState) :
    s.shoot Shell.BLANK s.current_player = { s with saw_active := false } := by
  simp [GameState.shoot]

/-- Claim C10: HiddenState.prob is total; when the queried count is 0 it
returns 0 outright, and otherwise the divisor live_shells + blank_shells is
positive, so the division is only taken over a positive total. -/
theorem prob_total_no_div_by_zero (h : HiddenState) (shell : Shell) :
    (h.count shell = 0 → h.prob shell = 0) ∧
    (h.count shell ≠ 0 →
      0 < h.live_shells + h.blank_shells ∧
      h.prob shell = (h.count shell : ℚ) /
        ((h.live_shells + h.blank_shells : Nat) : ℚ)) := by
  constructor
  · intro h0
    simp [HiddenState.prob, h0]
  · intro h0
    have hpos : 0 < h.live_shells + h.blank_shells := by
      cases shell <;> simp [HiddenState.count] at h0 <;> omega
    exact ⟨hpos, by simp [HiddenState.prob, h0]⟩

/-- Claim C10 witness: counts (0, 3) give probability 0 for LIVE without any
division; counts (1, 3) give the ratio over the positive total. -/
theorem prob_total_no_div_by_zero_witness :
    (HiddenState.mk 0 3 none).prob Shell.LIVE = 0 ∧
    (0 < (HiddenState.mk 1 3 none).live_shells +
        (HiddenState.mk 1 3 none).blank_shells ∧
      (HiddenState.mk 1 3 none).prob Shell.LIVE =
        (((HiddenState.mk 1 3 none).count Shell.LIVE : Nat) : ℚ) /
          (((HiddenState.mk 1 3 none).live_shells +
            (HiddenState.mk 1 3 none).blank_shells : Nat) : ℚ)) :=
  ⟨(prob_total_no_div_by_zero ⟨0, 3, none⟩ Shell.LIVE).1 (by decide),
    (prob_total_no_div_by_zero ⟨1, 3, none⟩ Shell.LIVE).2 (by decide)⟩

end ZeroSumFC
